import Mathlib

/-!
# Formal model of the FourCast budget-tracker core (src/MAIN/main.py)

A shallow embedding of the data-transformation core of the budget tracker:
record sanitization (`sanitize_records`), daily and category aggregation
(`daily_summary`, `create_spending_metrics`), the forecast tab, and the
undo/redo history manager around the record list.

Conventions:
* A calendar date is an integer day number with day 0 = 2018-01-01 (which was
  a Monday); `dayOfWeek d = d % 7` hence gives 0 = Monday, ..., 4 = Friday,
  5 = Saturday, 6 = Sunday, and the sanitizer's fixed floor date is day 0.
* Monetary amounts are rationals (the idealization of the float arithmetic).
* The pandas standard deviation comparison `|x - mean| <= 3*std` (with
  `std = sqrt(var)`) is embedded as the equivalent rational comparison
  `(x - mean)^2 <= 9 * var`, and `std > 0` as `var > 0`, avoiding square
  roots exactly.
-/

namespace FourCast

/-- 0 = Monday, 1 = Tuesday, ..., 4 = Friday, 5 = Saturday, 6 = Sunday. -/
def dayOfWeek (d : ℤ) : ℤ := d % 7

/-- Saturday or Sunday. -/
def isWeekend (d : ℤ) : Bool := dayOfWeek d = 5 ∨ dayOfWeek d = 6

/-- The sanitizer's fixed floor date 2018-01-01, i.e. day 0. -/
def floorDate : ℤ := 0

/-- A sanitized expense record: the canonical row shape
`Date, Expense Label, Expense Amount, Category` of the DataFrame. -/
structure Record where
  date : ℤ
  label : String
  amount : ℚ
  category : String
deriving DecidableEq, Repr

/-! ## A stable insertion sort on lists (Bool-valued comparison)

pandas `groupby` sorts group keys ascending and `sort_values` is a stable
sort; we embed both with one stable insertion sort. -/

/-- Insert `a` into `l`, before the first element `b` with `¬ le a b`.
Stable: equal elements keep their relative order. -/
def insertLe (le : α → α → Bool) (a : α) : List α → List α
  | [] => [a]
  | b :: l => if le a b then a :: b :: l else b :: insertLe le a l

/-- Stable insertion sort by the Bool comparison `le`. -/
def sortLe (le : α → α → Bool) : List α → List α
  | [] => []
  | a :: l => insertLe le a (sortLe le l)

/-! ## Daily aggregation (`daily_summary`, tab2 / `daily_spending`, tab4)

The code computes `df.groupby("Date").agg({"Expense Amount": ["sum","count"]})`:
one row per distinct date, keys sorted ascending, with sum and count of the
amounts on that date.  There is no reindexing step of any kind after the
groupby. -/

/-- The distinct dates of the records, ascending: pandas groupby keys. -/
def sortedDates (df : List Record) : List ℤ :=
  sortLe (fun a b => decide (a ≤ b)) (df.map (·.date)).dedup

/-- Total amount spent on date `d`. -/
def sumOn (df : List Record) (d : ℤ) : ℚ :=
  ((df.filter (fun r => r.date = d)).map (·.amount)).sum

/-- Number of expenses on date `d`. -/
def countOn (df : List Record) (d : ℤ) : ℕ :=
  (df.filter (fun r => r.date = d)).length

/-- `daily_summary = df.groupby("Date").agg({"Expense Amount": ["sum","count"]})`:
rows `(Date, Total Spent, Number of Expenses)`, one per distinct date,
dates ascending. -/
def daily_summary (df : List Record) : List (ℤ × ℚ × ℕ) :=
  (sortedDates df).map (fun d => (d, sumOn df d, countOn df d))

/-! ## Sanitizer (`sanitize_records`)

Per-row: the date must parse to a calendar date (rows with an absent or
unparseable date become `NaT` and are dropped), the amount is coerced to a
number with absent/unparseable values becoming `0.0`, label and category
default to `"No Label"` / `"Uncategorized"`.  Rows whose date falls outside
`[2018-01-01, today]` are dropped.  Then, batch-level: if more than 5 rows
survive and the sample standard deviation (pandas `.std()`, `ddof = 1`) of
their amounts is positive, rows deviating from the mean by more than three
such standard deviations are removed. -/

/-- A loosely-typed cell of a raw input row: the key may be missing, the
value may fail to parse, or it parses to `a`. -/
inductive RawField (α : Type) where
  | absent
  | invalid
  | valid (a : α)
deriving DecidableEq, Repr

/-- A raw input row (manual entry or a row of an uploaded CSV). -/
structure RawRow where
  date : RawField ℤ
  amount : RawField ℚ
  label : RawField String
  category : RawField String
deriving DecidableEq, Repr

/-- `pd.to_numeric(..., errors="coerce").fillna(0.0)`: absent or
unparseable amounts become `0.0`. -/
def coerceAmount : RawField ℚ → ℚ
  | .valid q => q
  | _ => 0

/-- Missing labels default to `"No Label"`. -/
def coerceLabel : RawField String → String
  | .valid s => s
  | _ => "No Label"

/-- Missing categories default to `"Uncategorized"`. -/
def coerceCategory : RawField String → String
  | .valid s => s
  | _ => "Uncategorized"

/-- The per-row stage of `sanitize_records`: parse the date (dropping the
row when it is absent or unparseable, or outside `[2018-01-01, today]`),
coerce the amount, default label and category. -/
def parseRow (today : ℤ) (row : RawRow) : Option Record :=
  match row.date with
  | .valid d =>
      if floorDate ≤ d ∧ d ≤ today then
        some ⟨d, coerceLabel row.label, coerceAmount row.amount, coerceCategory row.category⟩
      else none
  | _ => none

/-- Mean of the amounts of a batch. -/
def amountMean (df : List Record) : ℚ :=
  (df.map (·.amount)).sum / df.length

/-- Sample variance (`ddof = 1`, the default of pandas `.std()`) of the
amounts of a batch; the square of the standard deviation the code compares
against. -/
def amountSampleVar (df : List Record) : ℚ :=
  ((df.map (·.amount)).map (fun x => (x - amountMean df) ^ 2)).sum / (df.length - 1)

/-- The batch-level outlier stage of `sanitize_records`: when more than 5
rows survive and the sample standard deviation of the amounts is positive,
keep exactly the rows within three standard deviations of the mean
(`np.abs(a - mean) <= 3 * std`, embedded squared). -/
def outlierFilter (df : List Record) : List Record :=
  if 5 < df.length then
    if 0 < amountSampleVar df then
      df.filter (fun r => (r.amount - amountMean df) ^ 2 ≤ 9 * amountSampleVar df)
    else df
  else df

/-- `sanitize_records`: per-row parsing and filtering, then the batch-level
outlier filter. -/
def sanitize_records (today : ℤ) (rows : List RawRow) : List Record :=
  outlierFilter (rows.filterMap (parseRow today))

/-- The population variance of the amounts (`ddof = 0`), as the spec's
words "population standard deviation" would have it — for comparison with
the sample variance the code actually uses. -/
def amountPopVar (df : List Record) : ℚ :=
  ((df.map (·.amount)).map (fun x => (x - amountMean df) ^ 2)).sum / df.length

/-- Modelled from the spec: the outlier filter as the spec words it, with
the population standard deviation in place of the sample one. -/
def specPopOutlierFilter (df : List Record) : List Record :=
  if 5 < df.length then
    if 0 < amountPopVar df then
      df.filter (fun r => (r.amount - amountMean df) ^ 2 ≤ 9 * amountPopVar df)
    else df
  else df

/-! ## Summary metrics (`create_spending_metrics`)

`create_spending_metrics(df, daily_allowance)` returns `{}` for an empty
DataFrame and otherwise a dictionary of metrics; we embed the dictionary as
`Option Metrics` with `none` for the empty dictionary. -/

/-- Byte-wise comparison of characters, the order pandas sorts string group
keys by (it kernel-reduces, unlike the library order on `String`). -/
def lexLe : List Char → List Char → Bool
  | [], _ => true
  | _ :: _, [] => false
  | a :: as, b :: bs => if a = b then lexLe as bs else decide (a.toNat < b.toNat)

/-- Lexicographic string comparison used for category group keys. -/
def strLe (a b : String) : Bool := lexLe a.data b.data

/-- Total amount spent in category `c`. -/
def sumCat (df : List Record) (c : String) : ℚ :=
  ((df.filter (fun r => r.category = c)).map (·.amount)).sum

/-- `df.groupby("Category")["Expense Amount"].sum().sort_values(ascending=False)`:
category totals, keys first sorted ascending by the groupby, then sorted
descending by total. -/
def categoryTotals (df : List Record) : List (String × ℚ) :=
  sortLe (fun p q => decide (q.2 ≤ p.2))
    ((sortLe strLe (df.map (·.category)).dedup).map (fun c => (c, sumCat df c)))

/-- The per-date totals, ascending by date. -/
def dailyTotals (df : List Record) : List ℚ :=
  (sortedDates df).map (fun d => sumOn df d)

/-- Maximum of a list of daily totals (`.max()` of a nonempty series). -/
def maxTotal : List ℚ → ℚ
  | [] => 0
  | a :: l => l.foldl max a

/-- The metrics dictionary of `create_spending_metrics`. -/
structure Metrics where
  total_spent : ℚ
  avg_daily_spend : ℚ
  max_daily_spend : ℚ
  total_days : ℕ
  total_allowance : ℚ
  total_savings : ℚ
  savings_rate : ℚ
  top_category : String
deriving DecidableEq, Repr

/-- `create_spending_metrics`: `{}` (here `none`) on an empty DataFrame,
otherwise the spending, savings and category metrics; `savings_rate` is
`total_savings / total_allowance * 100` guarded by `total_allowance > 0`,
else `0`. -/
def create_spending_metrics (df : List Record) (daily_allowance : ℚ) : Option Metrics :=
  if df = [] then none
  else
    let total_spent := (df.map (·.amount)).sum
    let total_days := (df.map (·.date)).dedup.length
    let total_allowance := (total_days : ℚ) * daily_allowance
    let total_savings := total_allowance - total_spent
    some
      { total_spent := total_spent
        avg_daily_spend := (dailyTotals df).sum / (dailyTotals df).length
        max_daily_spend := maxTotal (dailyTotals df)
        total_days := total_days
        total_allowance := total_allowance
        total_savings := total_savings
        savings_rate :=
          if 0 < total_allowance then total_savings / total_allowance * 100 else 0
        top_category :=
          match categoryTotals df with
          | [] => "None"
          | c :: _ => c.1 }

/-! ## Forecast tab (tab4, lines 789–849)

`daily_spending = df.groupby("Date").agg({"Expense Amount": "sum"})`; with
at least 2 days the code forecasts a flat average over the next 7 dates of
`pd.date_range(last + 1 day, periods=7)` (consecutive calendar days);
otherwise it shows the "Need at least 2 days of data" message. -/

/-- The daily spending series of the forecast tab: one `(date, total)` pair
per distinct date, ascending. -/
def dailySpending (df : List Record) : List (ℤ × ℚ) :=
  (sortedDates df).map (fun d => (d, sumOn df d))

/-- `pd.date_range(last + 1 day, periods = n)`: the `n` consecutive
calendar days following `last`. -/
def futureDates (last : ℤ) (n : ℕ) : List ℤ :=
  (List.range n).map (fun i : ℕ => last + 1 + (i : ℤ))

/-- Outcome of the forecast tab: either the "Need at least 2 days of data"
message (carrying the day count it reports) or a list of future dates with
the projected spending for each. -/
inductive ForecastResult where
  | insufficient (ndays : ℕ)
  | forecast (dates : List ℤ) (values : List ℚ)
deriving DecidableEq, Repr

/-- The forecast tab's computation: flat average of the daily series over
the next 7 calendar days when at least 2 days of history exist. -/
def forecastTab (df : List Record) : ForecastResult :=
  let ds := dailySpending df
  if 2 ≤ ds.length then
    let avg := (ds.map (·.2)).sum / ds.length
    let last := (ds.getLastD (0, 0)).1
    .forecast (futureDates last 7) (List.replicate 7 avg)
  else .insufficient ds.length

/-- Modelled from the spec: the slope of the ordinary-least-squares line
`value = slope * index + intercept` over values indexed `0..n-1`.  No such
computation exists in the code; it is stated here only to compare the
spec's claimed linear-trend method against the code's output. -/
def specOlsSlope (vs : List ℚ) : ℚ :=
  let n : ℚ := vs.length
  let idx : List ℚ := (List.range vs.length).map (fun i => (i : ℚ))
  let si := idx.sum
  let sv := vs.sum
  let sii := (idx.map (fun i => i ^ 2)).sum
  let siv := ((idx.zip vs).map (fun p => p.1 * p.2)).sum
  (n * siv - si * sv) / (n * sii - si ^ 2)

/-- Modelled from the spec: the intercept of the ordinary-least-squares fit. -/
def specOlsIntercept (vs : List ℚ) : ℚ :=
  (vs.sum - specOlsSlope vs * ((List.range vs.length).map (fun i => (i : ℚ))).sum) /
    vs.length

/-- Modelled from the spec: the least-squares fit evaluated at index `k`. -/
def specOlsFit (vs : List ℚ) (k : ℕ) : ℚ :=
  specOlsSlope vs * (k : ℚ) + specOlsIntercept vs

/-! ## History manager (undo/redo around the record sequence)

The session state holds `records`, `history` and `redo_stack`; the five
operations that touch them are the Add Expense button, the Confirm Upload
button, the Reset buttons, Undo and Redo.  Stacks grow at the end
(`list.append` / most-recent-last). -/

/-- Python's `str.strip()`: drop whitespace from both ends. -/
def stripStr (s : String) : String :=
  ⟨((s.data.dropWhile Char.isWhitespace).reverse.dropWhile Char.isWhitespace).reverse⟩

/-- The session state as a value: the live record list and the two stacks
of snapshots. -/
structure TState where
  records : List Record
  history : List (List Record)
  redoStack : List (List Record)
deriving DecidableEq, Repr

/-- The Add Expense button: rejected (no mutation at all) when the amount
is not positive or the stripped label is empty; otherwise a snapshot of the
current records is pushed onto `history`, `redo_stack` is cleared, and the
new record is appended. -/
def addExpense (s : TState) (d : ℤ) (label : String) (amount : ℚ)
    (category : String) : TState :=
  if amount ≤ 0 then s
  else if stripStr label = "" then s
  else
    { records := s.records ++ [⟨d, stripStr label, amount, category⟩]
      history := s.history ++ [s.records]
      redoStack := [] }

/-- The Confirm Upload button (both call sites): a snapshot of the current
records is pushed onto `history` and the records are replaced by the
sanitized upload; `redo_stack` is left as it is. -/
def confirmUpload (s : TState) (today : ℤ) (rows : List RawRow) : TState :=
  { records := sanitize_records today rows
    history := s.history ++ [s.records]
    redoStack := s.redoStack }

/-- The Reset buttons (sidebar and tracker): records and both stacks are
emptied; nothing is pushed onto `history` first. -/
def resetTracker (_ : TState) : TState :=
  { records := [], history := [], redoStack := [] }

/-- The Undo button: disabled (a no-op) when `history` is empty; otherwise
the current records are pushed onto `redo_stack` and the most recent
`history` snapshot becomes current. -/
def undo (s : TState) : TState :=
  match s.history.getLast? with
  | none => s
  | some prev =>
      { records := prev
        history := s.history.dropLast
        redoStack := s.redoStack ++ [s.records] }

/-- The Redo button: disabled (a no-op) when `redo_stack` is empty;
otherwise the current records are pushed onto `history` and the most
recent `redo_stack` snapshot becomes current. -/
def redo (s : TState) : TState :=
  match s.redoStack.getLast? with
  | none => s
  | some nxt =>
      { records := nxt
        history := s.history ++ [s.records]
        redoStack := s.redoStack.dropLast }

/-! ## Heap model of snapshot sharing (for the deep-copy invariant)

In Python the record list holds references to mutable dictionaries and the
snapshots are taken with `list.copy()`, a shallow copy.  To reason about
aliasing we model the heap explicitly: record objects live in a `heap`
list, and the live sequence and the snapshots are lists of pointers
(indices) into it.  `list.copy()` duplicates the pointer list but not the
pointed-to records. -/

/-- Session state with an explicit heap: `records`, `history` and
`redoStack` hold pointers into `heap`. -/
structure HState where
  heap : List Record
  records : List ℕ
  history : List (List ℕ)
  redoStack : List (List ℕ)
deriving DecidableEq, Repr

/-- The record values a pointer list denotes (`none` for a dangling
pointer, which never occurs in reachable states). -/
def view (heap : List Record) (ptrs : List ℕ) : List (Option Record) :=
  ptrs.map (fun p => heap[p]?)

/-- The Add Expense button in the heap model: `history.append(records.copy())`
copies only the pointer list, the new record is allocated at the end of
the heap and its pointer appended to the live sequence. -/
def addExpenseH (s : HState) (r : Record) : HState :=
  if r.amount ≤ 0 then s
  else if stripStr r.label = "" then s
  else
    { heap := s.heap ++ [r]
      records := s.records ++ [s.heap.length]
      history := s.history ++ [s.records]
      redoStack := [] }

/-- In-place mutation of the record object at pointer `p` (what a Python
`record["Expense Amount"] = ...` on a member of the live list would do). -/
def setRecordH (s : HState) (p : ℕ) (r : Record) : HState :=
  { s with heap := s.heap.set p r }

/-- Example records used to test the daily series: one expense on
Monday 2018-01-01 (day 0) and one on the Friday of the following week
(day 11), nothing in between. -/
def dfMonFri : List Record :=
  [⟨0, "mon", 10, "Food"⟩, ⟨11, "fri", 20, "Transport"⟩]

/-- A single record on Saturday 2018-01-06 (day 5). -/
def dfSat : List Record := [⟨5, "sat", 7, "Food"⟩]

/-- The literal outlier-threshold batch of the spec: amounts
`[10,10,10,10,10,10,1000]`. -/
def batch7 : List Record :=
  [⟨0, "a", 10, "Food"⟩, ⟨0, "b", 10, "Food"⟩, ⟨0, "c", 10, "Food"⟩,
   ⟨0, "d", 10, "Food"⟩, ⟨0, "e", 10, "Food"⟩, ⟨0, "f", 10, "Food"⟩,
   ⟨1, "g", 1000, "Food"⟩]

/-- A batch of 11 records with amounts `[0,0,0,0,0,0,0,0,0,1,5]`, on which
the sample-deviation filter of the code and the population-deviation filter
of the spec disagree about the `5` row. -/
def df11 : List Record :=
  [⟨0, "a", 0, "Food"⟩, ⟨0, "b", 0, "Food"⟩, ⟨0, "c", 0, "Food"⟩,
   ⟨0, "d", 0, "Food"⟩, ⟨0, "e", 0, "Food"⟩, ⟨0, "f", 0, "Food"⟩,
   ⟨0, "g", 0, "Food"⟩, ⟨0, "h", 0, "Food"⟩, ⟨0, "i", 0, "Food"⟩,
   ⟨0, "j", 1, "Food"⟩, ⟨0, "k", 5, "Food"⟩]

/-- Six days of strictly increasing spend (a nonzero trend), for probing
the forecast tab: dates 0..5, amounts 0,10,20,30,40,50. -/
def df6 : List Record :=
  [⟨0, "a", 0, "Food"⟩, ⟨1, "b", 10, "Food"⟩, ⟨2, "c", 20, "Food"⟩,
   ⟨3, "d", 30, "Food"⟩, ⟨4, "e", 40, "Food"⟩, ⟨5, "f", 50, "Food"⟩]

/-- A single day of history, below the 2-day forecast minimum. -/
def df1 : List Record := [⟨0, "a", 5, "Food"⟩]

/-- A one-record table used to exercise the metrics. -/
def dfOne : List Record := [⟨0, "a", 10, "Food"⟩]

/-- The metrics dictionary of `dfOne` at a daily allowance of 5. -/
def mOne : Metrics :=
  { total_spent := 10, avg_daily_spend := 10, max_daily_spend := 10,
    total_days := 1, total_allowance := 5, total_savings := -5,
    savings_rate := -100, top_category := "Food" }

/-- A raw row with a valid date and a negative amount. -/
def negRow : RawRow := ⟨.valid 0, .valid (-50), .valid "x", .valid "Food"⟩

/-- The sanitized record the negative-amount row becomes. -/
def negRec : Record := ⟨0, "x", -50, "Food"⟩

/-- A valid add onto the empty session. -/
def cexAdd : TState := addExpense ⟨[], [], []⟩ 0 "a" 5 "Food"

/-- ... undone again, so the redo stack is nonempty. -/
def cexAfterUndo : TState := undo cexAdd

/-- ... followed by a (bulk-import) Confirm Upload of an empty file. -/
def cexAfterUpload : TState := confirmUpload cexAfterUndo 0 []

/-- Heap-model records: the initial record ... -/
def recA : Record := ⟨0, "a", 1, "Food"⟩

/-- ... a second, validly added record ... -/
def recB : Record := ⟨1, "b", 2, "Food"⟩

/-- ... and the value written over `recA` by an in-place mutation. -/
def recMut : Record := ⟨0, "a", 99, "Food"⟩

/-- Heap-model state holding just `recA`. -/
def hs0 : HState := ⟨[recA], [0], [], []⟩

/-- After adding `recB`: a snapshot (the pointer list `[0]`) is on `history`. -/
def hs1 : HState := addExpenseH hs0 recB

/-- After mutating the record at pointer 0 — a record of the live sequence —
in place. -/
def hs2 : HState := setRecordH hs1 0 recMut

/-! # Helper lemmas -/

theorem mem_insertLe (le : α → α → Bool) (a x : α) (l : List α) :
    x ∈ insertLe le a l ↔ x = a ∨ x ∈ l := by
  induction l with
  | nil => simp [insertLe]
  | cons b l ih =>
      cases h : le a b with
      | true => simp [insertLe, h]
      | false =>
          simp only [insertLe, h, Bool.false_eq_true, if_false, List.mem_cons, ih]
          tauto

theorem mem_sortLe (le : α → α → Bool) (x : α) (l : List α) :
    x ∈ sortLe le l ↔ x ∈ l := by
  induction l with
  | nil => simp [sortLe]
  | cons a l ih => simp [sortLe, mem_insertLe, ih]

theorem mem_map_fst_daily_summary (df : List Record) (d : ℤ) :
    d ∈ (daily_summary df).map (fun e => e.1) ↔ ∃ r ∈ df, r.date = d := by
  simp only [daily_summary, List.map_map, List.mem_map, Function.comp]
  constructor
  · rintro ⟨x, hx, rfl⟩
    have : x ∈ (df.map (·.date)).dedup := by
      simpa [sortedDates, mem_sortLe] using hx
    rcases List.mem_map.mp (List.mem_dedup.mp this) with ⟨r, hr, hrd⟩
    exact ⟨r, hr, hrd⟩
  · rintro ⟨r, hr, rfl⟩
    refine ⟨r.date, ?_, rfl⟩
    simp only [sortedDates, mem_sortLe, List.mem_dedup, List.mem_map]
    exact ⟨r, hr, rfl⟩

theorem mem_of_mem_outlierFilter {df : List Record} {r : Record}
    (h : r ∈ outlierFilter df) : r ∈ df := by
  unfold outlierFilter at h
  split at h
  · split at h
    · exact (List.mem_filter.mp h).1
    · exact h
  · exact h

/-- A valid add (positive amount, nonempty stripped label) appends the
record, pushes a snapshot and clears the redo stack. -/
theorem addExpense_pos (s : TState) (d : ℤ) (label : String) (amount : ℚ)
    (category : String) (hamt : 0 < amount) (hlab : stripStr label ≠ "") :
    addExpense s d label amount category =
      ⟨s.records ++ [⟨d, stripStr label, amount, category⟩],
       s.history ++ [s.records], []⟩ := by
  unfold addExpense
  rw [if_neg (not_le.mpr hamt), if_neg hlab]

theorem undo_some {s : TState} {prev : List Record}
    (h : s.history.getLast? = some prev) :
    undo s = ⟨prev, s.history.dropLast, s.redoStack ++ [s.records]⟩ := by
  unfold undo
  rw [h]

theorem undo_empty {s : TState} (h : s.history = []) : undo s = s := by
  unfold undo
  rw [h]
  rfl

theorem redo_some {s : TState} {nxt : List Record}
    (h : s.redoStack.getLast? = some nxt) :
    redo s = ⟨nxt, s.history ++ [s.records], s.redoStack.dropLast⟩ := by
  unfold redo
  rw [h]

theorem redo_empty {s : TState} (h : s.redoStack = []) : redo s = s := by
  unfold redo
  rw [h]
  rfl

/-! # Claims -/

/-- C1, counterexample: with records only on Monday 2018-01-01 (day 0) and
the Friday of the following week (day 11), the daily series has exactly the
two recorded dates — the intervening business days (e.g. Tuesday, day 1) do
not appear with zero spend; and a record on a Saturday (day 5) does appear
in the series, so weekends are not excluded. -/
theorem C1_counterexample :
    dayOfWeek 0 = 0 ∧ dayOfWeek 11 = 4 ∧ dayOfWeek 1 = 1 ∧
    daily_summary dfMonFri = [(0, 10, 1), (11, 20, 1)] ∧
    (1 : ℤ) ∉ (daily_summary dfMonFri).map (fun e => e.1) ∧
    dayOfWeek 5 = 5 ∧ daily_summary dfSat = [(5, 7, 1)] := by
  have h : daily_summary dfMonFri = [(0, 10, 1), (11, 20, 1)] := by
    norm_num [daily_summary, dfMonFri, sortedDates, sortLe, insertLe, sumOn,
      countOn, List.filter]
  refine ⟨by decide, by decide, by decide, h, ?_, by decide, ?_⟩
  · rw [h]
    decide
  · norm_num [daily_summary, dfSat, sortedDates, sortLe, insertLe, sumOn,
      countOn, List.filter]

/-- C1 (amended): the daily series is the plain groupby — it has exactly
one entry per distinct date occurring in the records (business days without
records are absent, weekend dates with records are present), and each
entry carries the sum and the count of that date's amounts. -/
theorem C1_theorem (df : List Record) (d : ℤ) :
    (d ∈ (daily_summary df).map (fun e => e.1) ↔ ∃ r ∈ df, r.date = d) ∧
    (∀ e ∈ daily_summary df, e.2.1 = sumOn df e.1 ∧ e.2.2 = countOn df e.1) := by
  refine ⟨mem_map_fst_daily_summary df d, ?_⟩
  intro e he
  rcases List.mem_map.mp he with ⟨x, _, rfl⟩
  exact ⟨rfl, rfl⟩

/-- C1, witness: the Monday entry of the Monday/Friday example. -/
theorem C1_witness :
    ((0 : ℤ), (10 : ℚ), (1 : ℕ)) ∈ daily_summary dfMonFri ∧
    (10 : ℚ) = sumOn dfMonFri 0 ∧ (1 : ℕ) = countOn dfMonFri 0 := by
  have hmem : ((0 : ℤ), (10 : ℚ), (1 : ℕ)) ∈ daily_summary dfMonFri := by
    norm_num [daily_summary, dfMonFri, sortedDates, sortLe, insertLe, sumOn,
      countOn, List.filter]
  have h := (C1_theorem dfMonFri 0).2 _ hmem
  exact ⟨hmem, h.1, h.2⟩

/-- C9, counterexample: after a Friday (day 4, 2018-01-05) the code's
future dates `pd.date_range(last+1, periods=7)` are the seven consecutive
calendar days 5..11, which include the Saturday (day 5) and Sunday (day 6)
— they are not business days and weekends are not skipped. -/
theorem C9_counterexample :
    dayOfWeek 4 = 4 ∧ futureDates 4 7 = [5, 6, 7, 8, 9, 10, 11] ∧
    (5 : ℤ) ∈ futureDates 4 7 ∧ isWeekend 5 = true ∧
    (6 : ℤ) ∈ futureDates 4 7 ∧ isWeekend 6 = true := by
  decide

/-- C9 (amended): the `n` future dates are exactly the next `n` consecutive
calendar days strictly after the last historical date, weekends included:
membership is equivalent to `last < d ≤ last + n`. -/
theorem C9_theorem (last : ℤ) (n : ℕ) (d : ℤ) :
    (futureDates last n).length = n ∧
    (d ∈ futureDates last n ↔ last < d ∧ d ≤ last + n) := by
  unfold futureDates
  constructor
  · rw [List.length_map, List.length_range]
  · constructor
    · intro hd
      rcases List.mem_map.mp hd with ⟨i, hi, rfl⟩
      have := List.mem_range.mp hi
      omega
    · rintro ⟨h1, h2⟩
      refine List.mem_map.mpr ⟨(d - last - 1).toNat, List.mem_range.mpr ?_, ?_⟩ <;>
        omega

/-- C9, witness: day 6 is among the seven days after day 4. -/
theorem C9_witness :
    (4 : ℤ) < 6 ∧ (6 : ℤ) ≤ 4 + (7 : ℕ) ∧ (6 : ℤ) ∈ futureDates 4 7 :=
  ⟨by decide, by norm_num, (C9_theorem 4 7 6).2.mpr ⟨by decide, by norm_num⟩⟩

/-- C2, counterexample: on a 6-day series (so `n = 6 ≥ 5`) with a strict
upward trend, the forecast output is the flat average 25 repeated 7 times —
no ordinary-least-squares trend method is produced beside it: the OLS fit
(slope 10, intercept 0, value 60 at index 6) appears nowhere in the output,
which carries a single method for every `n ≥ 2`. -/
theorem C2_counterexample :
    (dailySpending df6).length = 6 ∧
    forecastTab df6 = .forecast [6, 7, 8, 9, 10, 11, 12] (List.replicate 7 25) ∧
    specOlsFit ((dailySpending df6).map (fun e => e.2)) 6 = 60 ∧
    (60 : ℚ) ∉ List.replicate 7 (25 : ℚ) := by
  have hds : dailySpending df6 =
      [(0, 0), (1, 10), (2, 20), (3, 30), (4, 40), (5, 50)] := by
    norm_num [dailySpending, df6, sortedDates, sortLe, insertLe, sumOn, List.filter]
  refine ⟨by rw [hds]; rfl, ?_, ?_, by decide⟩
  · norm_num [forecastTab, hds, futureDates, List.range_succ]
  · rw [hds]
    norm_num [specOlsFit, specOlsSlope, specOlsIntercept, List.range_succ]

/-- C2 (amended): with fewer than 2 days of history the forecast tab
returns the "not enough data" signal; with 2 or more days — whatever the
length, 5 or more included — it produces exactly one method, the flat
average: 7 projected values all equal to the mean of the daily series.  No
linear-trend method exists in the code. -/
theorem C2_theorem (df : List Record) :
    ((dailySpending df).length < 2 →
      forecastTab df = .insufficient (dailySpending df).length) ∧
    (2 ≤ (dailySpending df).length →
      forecastTab df = .forecast
        (futureDates ((dailySpending df).getLastD (0, 0)).1 7)
        (List.replicate 7
          (((dailySpending df).map (fun e => e.2)).sum / (dailySpending df).length))) := by
  constructor
  · intro h
    unfold forecastTab
    rw [if_neg (by omega)]
  · intro h
    unfold forecastTab
    rw [if_pos h]

/-- C2, witness: the insufficient branch at a 1-day series and the
flat-average branch at the 6-day series. -/
theorem C2_witness :
    (dailySpending df1).length < 2 ∧
    forecastTab df1 = .insufficient (dailySpending df1).length ∧
    2 ≤ (dailySpending df6).length ∧
    forecastTab df6 = .forecast
      (futureDates ((dailySpending df6).getLastD (0, 0)).1 7)
      (List.replicate 7
        (((dailySpending df6).map (fun e => e.2)).sum / (dailySpending df6).length)) := by
  have h1 : (dailySpending df1).length < 2 := by
    norm_num [dailySpending, df1, sortedDates, sortLe, insertLe]
  have h6 : 2 ≤ (dailySpending df6).length := by
    norm_num [dailySpending, df6, sortedDates, sortLe, insertLe]
  exact ⟨h1, (C2_theorem df1).1 h1, h6, (C2_theorem df6).2 h6⟩

/-- C3, counterexample: two failures of the claim as stated.  (i) On the
literal batch `[10,10,10,10,10,10,1000]` nothing is dropped — `1000` does
not exceed `mean + 3*stdev` — so the surviving set is all seven rows, not
the six `10`-rows.  (ii) The filter uses the sample standard deviation
(pandas `.std()`, `ddof = 1`), not the population one: on the batch with
amounts `[0×9, 1, 5]` the population-deviation filter of the spec drops the
`5` row while the code keeps all 11 rows. -/
theorem C3_counterexample :
    batch7.length = 7 ∧ outlierFilter batch7 = batch7 ∧
    (⟨1, "g", 1000, "Food"⟩ : Record) ∈ outlierFilter batch7 ∧
    outlierFilter df11 = df11 ∧
    specPopOutlierFilter df11 = df11.take 10 ∧
    specPopOutlierFilter df11 ≠ outlierFilter df11 := by
  have hb : outlierFilter batch7 = batch7 := by
    norm_num [outlierFilter, batch7, amountSampleVar, amountMean, List.filter]
  have hs : outlierFilter df11 = df11 := by
    norm_num [outlierFilter, df11, amountSampleVar, amountMean, List.filter]
  have hp : specPopOutlierFilter df11 = df11.take 10 := by
    norm_num [specPopOutlierFilter, df11, amountPopVar, amountMean, List.filter]
  refine ⟨by decide, hb, ?_, hs, hp, ?_⟩
  · rw [hb]
    decide
  · rw [hp, hs]
    decide

/-- C3 (amended): the outlier filter runs only on batches of more than 5
surviving rows and is a pure filter (kept rows come from the batch); with a
nonpositive sample variance it drops nothing; when it runs it keeps exactly
the rows within (inclusively) three sample standard deviations
(`ddof = 1`, not the population deviation) of the mean; and on the literal
batch `[10,10,10,10,10,10,1000]` it drops nothing at all. -/
theorem C3_theorem :
    (∀ df : List Record, df.length ≤ 5 → outlierFilter df = df) ∧
    (∀ df : List Record, amountSampleVar df ≤ 0 → outlierFilter df = df) ∧
    (∀ df : List Record, 5 < df.length → 0 < amountSampleVar df →
      outlierFilter df =
        df.filter (fun r => (r.amount - amountMean df) ^ 2 ≤ 9 * amountSampleVar df)) ∧
    (∀ (df : List Record) (r : Record), r ∈ outlierFilter df → r ∈ df) ∧
    outlierFilter batch7 = batch7 := by
  refine ⟨?_, ?_, ?_, fun df r => mem_of_mem_outlierFilter, ?_⟩
  · intro df h
    unfold outlierFilter
    rw [if_neg (by omega)]
  · intro df h
    unfold outlierFilter
    split
    · rw [if_neg (not_lt.mpr h)]
    · rfl
  · intro df h1 h2
    unfold outlierFilter
    rw [if_pos h1, if_pos h2]
  · norm_num [outlierFilter, batch7, amountSampleVar, amountMean, List.filter]

/-- C3, witness: the size guard applied to the one-row batch `dfSat` and
the filtering branch applied to `df11`. -/
theorem C3_witness :
    dfSat.length ≤ 5 ∧ outlierFilter dfSat = dfSat ∧
    5 < df11.length ∧ 0 < amountSampleVar df11 ∧
    outlierFilter df11 =
      df11.filter (fun r => (r.amount - amountMean df11) ^ 2 ≤ 9 * amountSampleVar df11) := by
  have hv : 0 < amountSampleVar df11 := by
    norm_num [amountSampleVar, amountMean, df11]
  exact ⟨by decide, C3_theorem.1 dfSat (by decide), by decide, hv,
    C3_theorem.2.2.1 df11 (by decide) hv⟩

/-- C4, counterexample: the bulk CSV import does not clear the redo stack,
and the reset does not push a snapshot.  After add → undo, the redo stack
is nonempty; a Confirm Upload then leaves it nonempty, so a subsequent redo
is not a no-op; and resetting after the add leaves `history` empty instead
of pushing a copy of the current records. -/
theorem C4_counterexample :
    cexAfterUpload.redoStack ≠ [] ∧
    redo cexAfterUpload ≠ cexAfterUpload ∧
    (resetTracker cexAdd).history = [] ∧ cexAdd.records ≠ [] := by
  decide

/-- C4 (amended): only the single add pushes a snapshot and clears the
redo stack (so redo right after it is a no-op); the bulk CSV import pushes
a snapshot but leaves the redo stack untouched; the reset empties records
and both stacks without pushing any snapshot. -/
theorem C4_theorem (s : TState) (d : ℤ) (label : String) (amount : ℚ)
    (category : String) (today : ℤ) (rows : List RawRow)
    (hamt : 0 < amount) (hlab : stripStr label ≠ "") :
    (addExpense s d label amount category).history = s.history ++ [s.records] ∧
    (addExpense s d label amount category).redoStack = [] ∧
    redo (addExpense s d label amount category) = addExpense s d label amount category ∧
    (confirmUpload s today rows).history = s.history ++ [s.records] ∧
    (confirmUpload s today rows).redoStack = s.redoStack ∧
    resetTracker s = ⟨[], [], []⟩ := by
  rw [addExpense_pos s d label amount category hamt hlab]
  exact ⟨rfl, rfl, redo_empty rfl, rfl, rfl, rfl⟩

/-- C4, witness: the amended statement at the concrete one-add session. -/
theorem C4_witness :
    (0 : ℚ) < 5 ∧ stripStr "a" ≠ "" ∧
    (addExpense ⟨[], [], []⟩ 0 "a" 5 "Food").history = [] ++ [[]] ∧
    (addExpense ⟨[], [], []⟩ 0 "a" 5 "Food").redoStack = [] ∧
    redo (addExpense ⟨[], [], []⟩ 0 "a" 5 "Food") = addExpense ⟨[], [], []⟩ 0 "a" 5 "Food" ∧
    (confirmUpload ⟨[], [], []⟩ 0 []).history = [] ++ [[]] ∧
    (confirmUpload ⟨[], [], []⟩ 0 []).redoStack = [] ∧
    resetTracker ⟨[], [], []⟩ = ⟨[], [], []⟩ := by
  have h := C4_theorem ⟨[], [], []⟩ 0 "a" 5 "Food" 0 [] (by norm_num) (by decide)
  exact ⟨by norm_num, by decide, h.1, h.2.1, h.2.2.1, h.2.2.2.1, h.2.2.2.2.1, h.2.2.2.2.2⟩

/-- C5 (confirmed): a valid add followed by undo restores the starting
records exactly, and a redo after that restores the post-add records
exactly; undo with empty history and redo with empty redo stack are
no-ops. -/
theorem C5_theorem (s : TState) (d : ℤ) (label : String) (amount : ℚ)
    (category : String) (hamt : 0 < amount) (hlab : stripStr label ≠ "") :
    (undo (addExpense s d label amount category)).records = s.records ∧
    (redo (undo (addExpense s d label amount category))).records =
      (addExpense s d label amount category).records ∧
    (∀ t : TState, t.history = [] → undo t = t) ∧
    (∀ t : TState, t.redoStack = [] → redo t = t) := by
  have hadd := addExpense_pos s d label amount category hamt hlab
  have hu : undo (addExpense s d label amount category) =
      ⟨s.records, s.history, [(addExpense s d label amount category).records]⟩ := by
    rw [hadd, undo_some (List.getLast?_concat _)]
    simp only [List.dropLast_concat, List.nil_append]
  have hr : redo (⟨s.records, s.history,
      [(addExpense s d label amount category).records]⟩ : TState) =
      ⟨(addExpense s d label amount category).records,
       s.history ++ [s.records], []⟩ := rfl
  refine ⟨by rw [hu], by rw [hu, hr], fun t ht => undo_empty ht,
    fun t ht => redo_empty ht⟩

/-- C5, witness: the round trip on a concrete one-record session. -/
theorem C5_witness :
    (0 : ℚ) < 2 ∧ stripStr "b" ≠ "" ∧
    (undo (addExpense ⟨[recA], [], []⟩ 1 "b" 2 "Food")).records = [recA] ∧
    (redo (undo (addExpense ⟨[recA], [], []⟩ 1 "b" 2 "Food"))).records =
      (addExpense ⟨[recA], [], []⟩ 1 "b" 2 "Food").records := by
  have h := C5_theorem ⟨[recA], [], []⟩ 1 "b" 2 "Food" (by norm_num) (by decide)
  exact ⟨by norm_num, by decide, h.1, h.2.1⟩

/-- C6, counterexample: on empty input the metrics function returns the
empty dictionary — there is no `savings_rate` entry equal to `0` (or to
anything else). -/
theorem C6_counterexample :
    create_spending_metrics ([] : List Record) 5 = none ∧
    (create_spending_metrics ([] : List Record) 5).map (fun m => m.savings_rate) ≠
      some 0 := by
  exact ⟨rfl, by simp [create_spending_metrics]⟩

/-- C6 (amended): whenever metrics are produced (nonempty input),
`savings_rate` is `total_savings / total_allowance * 100` when
`total_allowance > 0` and `0` otherwise, so no division by zero can occur;
on empty input no metrics are produced at all. -/
theorem C6_theorem :
    (∀ (df : List Record) (a : ℚ) (m : Metrics),
      create_spending_metrics df a = some m →
        (0 < m.total_allowance →
          m.savings_rate = m.total_savings / m.total_allowance * 100) ∧
        (m.total_allowance ≤ 0 → m.savings_rate = 0)) ∧
    (∀ a : ℚ, create_spending_metrics ([] : List Record) a = none) := by
  constructor
  · intro df a m h
    by_cases hdf : df = []
    · rw [hdf] at h
      exact absurd h (by simp [create_spending_metrics])
    · simp only [create_spending_metrics, if_neg hdf, Option.some.injEq] at h
      subst h
      constructor
      · intro h'
        simp only at h' ⊢
        rw [if_pos h']
      · intro h'
        simp only at h' ⊢
        rw [if_neg (not_lt.mpr h')]
  · intro a
    rfl

/-- C6, witness: the guarded formula at a concrete one-record table. -/
theorem C6_witness :
    create_spending_metrics dfOne 5 = some mOne ∧ 0 < mOne.total_allowance ∧
    mOne.savings_rate = mOne.total_savings / mOne.total_allowance * 100 := by
  have h : create_spending_metrics dfOne 5 = some mOne := by
    norm_num [create_spending_metrics, dfOne, mOne, dailyTotals, sortedDates,
      sortLe, insertLe, sumOn, categoryTotals, sumCat, strLe, lexLe, maxTotal,
      List.filter, Metrics.mk.injEq]
  have hpos : (0 : ℚ) < mOne.total_allowance := by norm_num [mOne]
  exact ⟨h, hpos, ((C6_theorem.1 dfOne 5 mOne h).1 hpos)⟩

/-- C7, counterexample: the sanitizer never enforces `amount >= 0` — a raw
row with a valid in-window date and amount `-50` survives sanitization with
its negative amount intact. -/
theorem C7_counterexample :
    sanitize_records 10 [negRow] = [negRec] ∧ negRec.amount < 0 := by
  constructor
  · decide
  · norm_num [negRec]

/-- C7 (amended): every record output by the sanitizer has a date within
the window `[2018-01-01 (floor), today]`, and rows whose date is absent or
unparseable are dropped entirely (their parse yields no record); amounts,
however, are only coerced to numbers — they may be negative. -/
theorem C7_theorem :
    (∀ (today : ℤ) (rows : List RawRow) (r : Record),
      r ∈ sanitize_records today rows → floorDate ≤ r.date ∧ r.date ≤ today) ∧
    (∀ (today : ℤ) (row : RawRow),
      row.date = RawField.absent ∨ row.date = RawField.invalid →
        parseRow today row = none) := by
  constructor
  · intro today rows r hr
    have hr2 : r ∈ rows.filterMap (parseRow today) := mem_of_mem_outlierFilter hr
    rcases List.mem_filterMap.mp hr2 with ⟨row, _, hrow⟩
    cases hd : row.date with
    | valid d =>
        simp only [parseRow, hd] at hrow
        split at hrow
        · rename_i hc
          injection hrow with h2
          subst h2
          exact hc
        · exact absurd hrow (by simp)
    | absent => simp [parseRow, hd] at hrow
    | invalid => simp [parseRow, hd] at hrow
  · intro today row h
    rcases h with h | h <;> simp [parseRow, h]

/-- C7, witness: the window bound at the concrete surviving record, and the
drop of a row with an unparseable date. -/
theorem C7_witness :
    negRec ∈ sanitize_records 10 [negRow] ∧
    (floorDate ≤ negRec.date ∧ negRec.date ≤ 10) ∧
    parseRow 10 (⟨RawField.invalid, RawField.valid 3, RawField.valid "x",
      RawField.valid "Food"⟩ : RawRow) = none := by
  have hmem : negRec ∈ sanitize_records 10 [negRow] := by decide
  exact ⟨hmem, C7_theorem.1 10 [negRow] negRec hmem,
    C7_theorem.2 10 _ (Or.inr rfl)⟩

/-- C8, counterexample: snapshots are shallow copies.  After a valid add,
`history` holds the pointer list `[0]`; pointer `0` is still in the live
sequence, and an in-place mutation of that record changes what the
snapshot denotes: its view is `[some recMut]` afterwards instead of
`[some recA]`. -/
theorem C8_counterexample :
    hs1.history = [[0]] ∧ (0 : ℕ) ∈ hs2.records ∧ hs2.history = [[0]] ∧
    view hs1.heap [0] = [some recA] ∧ view hs2.heap [0] = [some recMut] ∧
    view hs2.heap [0] ≠ view hs1.heap [0] := by
  decide

/-- C8 (amended): the snapshots share record objects with the live
sequence (shallow copies), so an in-place record mutation would alter
them; but the structural operation the program performs — a valid add,
which only appends a fresh record to the heap — preserves every history
snapshot and its denoted contents. -/
theorem C8_theorem (s : HState) (r : Record) (snap : List ℕ)
    (hmem : snap ∈ s.history) (hwf : ∀ p ∈ snap, p < s.heap.length) :
    snap ∈ (addExpenseH s r).history ∧
    view (addExpenseH s r).heap snap = view s.heap snap := by
  unfold addExpenseH
  split
  · exact ⟨hmem, rfl⟩
  · split
    · exact ⟨hmem, rfl⟩
    · refine ⟨List.mem_append_left _ hmem, ?_⟩
      unfold view
      apply List.map_congr_left
      intro p hp
      exact List.getElem?_append_left (hwf p hp)

/-- C8, witness: adding a further record to `hs1` preserves the `[0]`
snapshot and its contents. -/
theorem C8_witness :
    [0] ∈ hs1.history ∧ (∀ p ∈ [0], p < hs1.heap.length) ∧
    view (addExpenseH hs1 recMut).heap [0] = view hs1.heap [0] := by
  have h1 : [0] ∈ hs1.history := by decide
  have h2 : ∀ p ∈ [0], p < hs1.heap.length := by decide
  exact ⟨h1, h2, (C8_theorem hs1 recMut [0] h1 h2).2⟩

/-- C10 (confirmed): on an empty record table `create_spending_metrics`
returns the empty dictionary — no `total_spent`, `savings_rate`,
`total_days` or `top_category` entries exist (here: `none`, not a zeroed
`Metrics`). -/
theorem C10_theorem (a : ℚ) : create_spending_metrics ([] : List Record) a = none :=
  rfl

end FourCast
